import Mathlib

/-!
Shallow embedding of the note-writer pipeline of the `ainotewriter`
repository (files `src/note_writer/llm_util.py`, `src/note_writer/write_note.py`,
`src/note_writer/misleading_tags.py`), together with theorems about the
embedded functions.

Conventions used throughout:
  * Python strings are Lean `String`s (sequences of unicode code points,
    matching Python `len`/slicing semantics).
  * Machine time (`time.time()`) is modelled as `Nat` seconds; the only uses
    are the comparisons `now - ts > 300` and `now - ts <= 300`, whose results
    under truncated `Nat` subtraction agree with Python float subtraction
    for every combination of `now` and `ts` (for `ts > now` both say
    "not expired").
  * Network and LLM effects are oracle parameters: a call that may raise is a
    value of `Except String a` whose `.error` carries Python `str(e)`.
    `requests.get` is an oracle `String -> FetchOutcome`; `json.loads` (the
    Python standard-library boundary) is an oracle `String -> Option JVal`
    returning `none` exactly when `json.loads` raises `JSONDecodeError`.
  * Printing/logging statements of the source are dropped; they do not affect
    any returned value.
  * Python regular expressions used by the source are hand-compiled to
    executable Lean matchers with the same leftmost/alternation/greedy
    semantics, specialised to the concrete patterns of the source.
-/

/-! ## Python string primitives -/

/-- Python substring test `needle in hay`, on lists of characters. -/
def csub (needle : List Char) : List Char → Bool
  | [] => needle.isEmpty
  | c :: rest => needle.isPrefixOf (c :: rest) || csub needle rest

/-- Python substring test `needle in hay` for strings. -/
def containsSub (hay needle : String) : Bool :=
  csub needle.data hay.data

/-- ASCII whitespace recognised by Python `str.strip` / regex `\s`
(unicode whitespace beyond these six characters is not modelled). -/
def isPyWs (c : Char) : Bool :=
  c = ' ' || c = '\t' || c = '\n' || c = '\r' || c = '\x0b' || c = '\x0c'

/-- Python `str.strip()` on a character list. -/
def pyStripL (l : List Char) : List Char :=
  ((l.dropWhile isPyWs).reverse.dropWhile isPyWs).reverse

/-- Python `str.strip()`. -/
def pyStrip (s : String) : String := String.mk (pyStripL s.data)

/-- Python `str.lower()` (ASCII case folding). -/
def pyLower (s : String) : String := String.mk (s.data.map Char.toLower)

/-- Python slice `s[:n]`. -/
def pyTake (s : String) (n : Nat) : String := String.mk (s.data.take n)

/-- Python slice `s[n:]`. -/
def pyDrop (s : String) (n : Nat) : String := String.mk (s.data.drop n)

/-- Python `s.startswith(p)`. -/
def pyStartsWith (s p : String) : Bool := p.data.isPrefixOf s.data

/-! ## Retry/backoff executor (`llm_util._retry_with_backoff`) -/

/-- Events recorded while executing `_retry_with_backoff`: the single
`_rate_limit()` call, each invocation of the wrapped `api_call_func`
(with its 0-based attempt index), and each backoff `time.sleep` (seconds). -/
inductive REvent where
  | rateLimit : REvent
  | attempt : Nat → REvent
  | sleep : Nat → REvent
deriving DecidableEq, Repr

/-- The retryability classification of `_retry_with_backoff` (lines 57-68):
an error is retryable iff it is not marked `CONTENT_FILTERED:` and its
message matches one of the transient markers. -/
def is_retryable_error (e : String) : Bool :=
  !containsSub e "CONTENT_FILTERED:" &&
    (containsSub e "429" || containsSub e "RESOURCE_EXHAUSTED" ||
     containsSub e "503" || containsSub e "UNAVAILABLE" ||
     containsSub e "returned None response text" ||
     containsSub e "INTERNAL" || containsSub e "UNKNOWN" ||
     containsSub (pyLower e) "timeout" || containsSub (pyLower e) "connection")

/-- Backoff wait seconds chosen by `_retry_with_backoff` (lines 71-91),
as a function of the error message and the 0-based attempt index. -/
def waitTime (e : String) (attempt : Nat) : Nat :=
  if containsSub e "503" || containsSub e "UNAVAILABLE" then
    if attempt = 0 then 10 else min (30 * 2 ^ (attempt - 1)) 120
  else if containsSub e "returned None response text" then
    15 + attempt * 10
  else if containsSub e "429" || containsSub e "RESOURCE_EXHAUSTED" then
    if containsSub e "retryDelay" && containsSub e "55s" then 55
    else if attempt > 0 then min (60 * 2 ^ attempt) 300
    else 60
  else 20 + attempt * 15

/-- Message raised when a retryable error persists past the final attempt
(`_retry_with_backoff` lines 95-109). -/
def exhaustedMsg (e : String) (maxRetries : Nat) : String :=
  if containsSub e "503" || containsSub e "UNAVAILABLE" then
    "Service unavailable after " ++ toString maxRetries ++ " retries. The Gemini API is currently overloaded. Please try again later."
  else if containsSub e "returned None response text" then
    "Gemini API returned None response after " ++ toString maxRetries ++ " retries. This may be due to content filtering or temporary model issues. Please check your input content and try again later."
  else if containsSub e "429" || containsSub e "RESOURCE_EXHAUSTED" then
    "Rate limit exceeded after " ++ toString maxRetries ++ " retries. Gemini API free tier allows 15 requests per minute. Consider upgrading your plan or waiting before retrying."
  else
    "Temporary API issue persisted after " ++ toString maxRetries ++ " retries: " ++ e

/-- Message raised for a non-retryable error (`_retry_with_backoff`
lines 110-118). -/
def immediateMsg (e : String) : String :=
  if containsSub e "CONTENT_FILTERED:" then
    "Gemini API blocked your content due to safety filters. The prompt contains content that violates Gemini\x27s usage policies. Please review and modify your input to avoid prohibited content. Details: " ++ e
  else
    "Error making Gemini request: " ++ e

/-- The `for attempt in range(max_retries + 1)` loop of `_retry_with_backoff`.
`call` is the wrapped `api_call_func`, indexed by attempt number (the call
is impure, so successive invocations may behave differently). `gas` is the
number of retries still allowed, i.e. `maxRetries - attempt`; the source
test `attempt < max_retries` is exactly `gas > 0`. Returns the final
result together with the list of call/sleep events, in order. -/
def retryLoop (call : Nat → Except String α) (maxRetries : Nat) :
    Nat → Nat → Except String α × List REvent
  | attempt, 0 =>
    match call attempt with
    | .ok v => (.ok v, [.attempt attempt])
    | .error e =>
      if is_retryable_error e then
        (.error (exhaustedMsg e maxRetries), [.attempt attempt])
      else
        (.error (immediateMsg e), [.attempt attempt])
  | attempt, gas + 1 =>
    match call attempt with
    | .ok v => (.ok v, [.attempt attempt])
    | .error e =>
      if is_retryable_error e then
        let r := retryLoop call maxRetries (attempt + 1) gas
        (r.1, .attempt attempt :: .sleep (waitTime e attempt) :: r.2)
      else
        (.error (immediateMsg e), [.attempt attempt])

/-- `_retry_with_backoff(api_call_func, max_retries)` (source default
`max_retries = 3`): it calls `_rate_limit()` exactly once, before the loop,
and then runs the attempt loop. Result plus full event trace. -/
def retry_with_backoff (call : Nat → Except String α) (maxRetries : Nat) :
    Except String α × List REvent :=
  let r := retryLoop call maxRetries 0 maxRetries
  (r.1, .rateLimit :: r.2)

/-- Recogniser for attempt events. -/
def isAttemptEvent : REvent → Bool
  | .attempt _ => true
  | _ => false

/-- Recogniser for rate-limit events. -/
def isRateLimitEvent : REvent → Bool
  | .rateLimit => true
  | _ => false

/-- Number of invocations of the wrapped call recorded in a trace. -/
def countAttemptEvents (tr : List REvent) : Nat := tr.countP isAttemptEvent

/-- Number of `_rate_limit()` invocations recorded in a trace. -/
def countRateLimitEvents (tr : List REvent) : Nat := tr.countP isRateLimitEvent

/-- Checks that every attempt event in a trace is preceded by a rate-limiter
event issued after the previous attempt (the formalisation of "the rate
limiter is called before every attempt, including retries"). The Boolean
argument records whether a rate-limit event has been seen since the last
attempt. -/
def rlBeforeEveryAttempt : Bool → List REvent → Bool
  | _, [] => true
  | _, .rateLimit :: rest => rlBeforeEveryAttempt true rest
  | seen, .attempt _ :: rest => seen && rlBeforeEveryAttempt false rest
  | seen, .sleep _ :: rest => rlBeforeEveryAttempt seen rest

/-- `_rate_limit()` wait computation (`llm_util` lines 24-35): given the
minimum interval, the recorded last-request time and the current time, the
thread sleeps this many seconds before updating the timestamp. -/
def rateLimitWaitTime (minInterval lastRequestTime now : Nat) : Nat :=
  if now - lastRequestTime < minInterval then
    minInterval - (now - lastRequestTime)
  else 0

/-- `_min_request_interval` (line 18). -/
def minRequestInterval : Nat := 7

/-! ## URL extraction (`llm_util.extract_urls_from_text`) -/

/-- The negated character class `[^\s<>"{}|\^`\[\]()]` of the URL regex. -/
def isUrlExcluded (c : Char) : Bool :=
  isPyWs c || c = '<' || c = '>' || c = '\x22' || c = '\x7b' || c = '\x7d' ||
  c = '|' || c = '\\' || c = '^' || c = '\x60' || c = '[' || c = ']' ||
  c = '(' || c = ')'

/-- ASCII alphanumeric, the class `[a-zA-Z0-9]` (Python `re` on ASCII text). -/
def isAsciiAlnum (c : Char) : Bool :=
  ('a' ≤ c && c ≤ 'z') || ('A' ≤ c && c ≤ 'Z') || ('0' ≤ c && c ≤ '9')

/-- ASCII letter, the class `[a-zA-Z]`. -/
def isAsciiAlpha (c : Char) : Bool :=
  ('a' ≤ c && c ≤ 'z') || ('A' ≤ c && c ≤ 'Z')

/-- Drop a literal prefix, or fail. -/
def dropLit (lit : List Char) (l : List Char) : Option (List Char) :=
  if lit.isPrefixOf l then some (l.drop lit.length) else none

/-- First alternative of the URL regex:
`https?://[^E]+(?:\([^E]*\))?[^E]*` where `E` is the excluded class.
Returns the matched characters and the remainder. The greedy/backtracking
behaviour of the Python engine collapses to: mandatory non-excluded run,
then at most one fully parenthesised non-excluded group, then another
non-excluded run. -/
def tryHttpAlt (l : List Char) : Option (List Char × List Char) :=
  match dropLit "http".data l with
  | none => none
  | some r0 =>
    let pfx_s : Option (List Char × List Char) :=
      match r0 with
      | 's' :: r1 =>
        match dropLit "://".data r1 with
        | some r2 => some ("https://".data, r2)
        | none => none
      | _ => none
    let pfx : Option (List Char × List Char) :=
      match pfx_s with
      | some p => some p
      | none =>
        match dropLit "://".data r0 with
        | some r2 => some ("http://".data, r2)
        | none => none
    match pfx with
    | none => none
    | some (scheme, r2) =>
      let run1 := r2.takeWhile (fun c => !isUrlExcluded c)
      if run1.isEmpty then none
      else
        let r3 := r2.drop run1.length
        let (grp, r4) :=
          match r3 with
          | '(' :: g1 =>
            let inner := g1.takeWhile (fun c => !isUrlExcluded c)
            match g1.drop inner.length with
            | ')' :: g2 => ('(' :: inner ++ [')'], g2)
            | _ => ([], r3)
          | _ => ([], r3)
        let run3 := r4.takeWhile (fun c => !isUrlExcluded c)
        some (scheme ++ run1 ++ grp ++ run3, r4.drop run3.length)

/-- Second alternative: `www\.[^E]+`. -/
def tryWwwAlt (l : List Char) : Option (List Char × List Char) :=
  match dropLit "www.".data l with
  | none => none
  | some r0 =>
    let run := r0.takeWhile (fun c => !isUrlExcluded c)
    if run.isEmpty then none
    else some ("www.".data ++ run, r0.drop run.length)

/-- Third alternative:
`[a-zA-Z0-9][a-zA-Z0-9-]*[a-zA-Z0-9]*\.[a-zA-Z]{2,}(?:/[^E]*)?`.
The literal `\.` can only match the first non-alphanumeric-or-hyphen
character after the start, so no backtracking survives: leading
alphanumeric, a run of alphanumeric-or-hyphen, a dot, a greedy run of at
least two letters and an optional `/`-path of non-excluded characters. -/
def tryBareAlt (l : List Char) : Option (List Char × List Char) :=
  match l with
  | [] => none
  | c0 :: r0 =>
    if isAsciiAlnum c0 then
      let hrun := r0.takeWhile (fun c => isAsciiAlnum c || c = '-')
      match r0.drop hrun.length with
      | '.' :: r2 =>
        let letters := r2.takeWhile isAsciiAlpha
        if letters.length ≥ 2 then
          let r3 := r2.drop letters.length
          match r3 with
          | '/' :: rp =>
            let path := rp.takeWhile (fun c => !isUrlExcluded c)
            some (c0 :: hrun ++ '.' :: letters ++ '/' :: path, rp.drop path.length)
          | _ => some (c0 :: hrun ++ '.' :: letters, r3)
        else none
      | _ => none
    else none

/-- Try the three regex alternatives, in the order of the pattern. -/
def tryUrlMatch (l : List Char) : Option (List Char × List Char) :=
  match tryHttpAlt l with
  | some m => some m
  | none =>
    match tryWwwAlt l with
    | some m => some m
    | none => tryBareAlt l

/-- `re.findall` of the URL pattern: scan left to right, at each position
try a match; on a match, continue after it, otherwise advance one
character. The fuel argument is an upper bound on the number of steps
(every step consumes at least one character, so `length + 1` suffices). -/
def urlFindall : Nat → List Char → List String
  | 0, _ => []
  | _, [] => []
  | fuel + 1, c :: cs =>
    match tryUrlMatch (c :: cs) with
    | some (m, rest) => String.mk m :: urlFindall fuel rest
    | none => urlFindall fuel cs

/-- Raw regex matches of `extract_urls_from_text` (line 967). -/
def rawUrls (text : String) : List String :=
  urlFindall (text.data.length + 1) text.data

/-- The trailing-punctuation class `[)\].,;:!?]` of the cleaning regex
(line 973). -/
def isTrailPunct (c : Char) : Bool :=
  c = ')' || c = ']' || c = '.' || c = ',' || c = ';' || c = ':' ||
  c = '!' || c = '?'

/-- Remove the maximal trailing run of sentence punctuation
(`re.sub(r'[)\].,;:!?]+$', '', url)`). -/
def dropTrailPunct (l : List Char) : List Char :=
  (l.reverse.dropWhile isTrailPunct).reverse

/-- One URL-cleaning step of `extract_urls_from_text` (lines 971-975):
`url.strip()` then strip trailing punctuation. -/
def cleanUrl (u : String) : String :=
  String.mk (dropTrailPunct (pyStripL u.data))

/-- Cleaned nonempty URLs, in match order (lines 970-975). -/
def cleaned_urls (text : String) : List String :=
  ((rawUrls text).map cleanUrl).filter (fun u => u ≠ "")

/-- The duplicate-removal loop of `extract_urls_from_text` (lines 977-983):
`seen` accumulates already-emitted URLs; the first occurrence wins. -/
def dedupAux (seen : List String) : List String → List String
  | [] => []
  | u :: rest =>
    if seen.contains u then dedupAux seen rest
    else u :: dedupAux (u :: seen) rest

/-- Order-preserving duplicate removal (first occurrence wins). -/
def dedupFirst (l : List String) : List String := dedupAux [] l

/-- The normalisation step of `extract_urls_from_text` (lines 985-994):
prefix `https://` onto any URL that does not start with a scheme (both
branches of the source `if url.startswith('www.')` produce the same
string). -/
def normalizeUrl (u : String) : String :=
  if !(pyStartsWith u "http://" || pyStartsWith u "https://") then
    if pyStartsWith u "www." then "https://" ++ u else "https://" ++ u
  else u

/-- `extract_urls_from_text` (lines 960-996). -/
def extract_urls_from_text (text : String) : List String :=
  (dedupFirst (cleaned_urls text)).map normalizeUrl

/-- Index of the first occurrence of a string in a list (length of the list
when absent); used to state order preservation. -/
def idxOf (x : String) : List String → Nat
  | [] => 0
  | y :: l => if y = x then 0 else idxOf x l + 1

/-! ## Page fetching (`llm_util.fetch_page_content`) -/

/-- Outcome of the `requests.get` call inside `fetch_page_content`: one of
the three specifically-caught exceptions, any other exception (with its
message), or an HTTP response with a status code and a decoded body.
Decoding never raises in the source (`errors='replace'`), so the body is
modelled as the decoded text. -/
inductive FetchOutcome where
  | timeout : FetchOutcome
  | connError : FetchOutcome
  | tooManyRedirects : FetchOutcome
  | exc : String → FetchOutcome
  | resp : Nat → String → FetchOutcome

/-- Body truncation of `fetch_page_content` (lines 1022-1030): bodies longer
than 50000 characters are cut and the fixed marker appended. -/
def truncateContent (s : String) : String :=
  if s.length > 50000 then String.mk (s.data.take 50000) ++ "... [content truncated]"
  else s

/-- `fetch_page_content` (lines 999-1042); the network call is the
`FetchOutcome` argument. Returns `(content, status_code, error_message)`. -/
def fetch_page_content : FetchOutcome → Option String × Nat × String
  | .timeout => (none, 0, "Request timeout")
  | .connError => (none, 0, "Connection error")
  | .tooManyRedirects => (none, 0, "Too many redirects")
  | .exc m => (none, 0, "Error: " ++ m)
  | .resp status body =>
    if status = 200 then (some (truncateContent body), status, "")
    else (none, status, "HTTP " ++ toString status)

/-! ## Source validation (`llm_util.validate_page_content_with_gemini`) -/

/-- `urlparse(u).netloc` for the (already lowercased) URLs used by the
source: strip a leading `scheme:` when present, then take the host part
after `//` up to the first `/`, `?` or `#`; empty when the URL has no
`//`. -/
def netlocOf (u : String) : String :=
  let rest :=
    match u.data with
    | [] => []
    | c :: tl =>
      if isAsciiAlpha c then
        let run := tl.takeWhile (fun ch => isAsciiAlnum ch || ch = '+' || ch = '-' || ch = '.')
        match tl.drop run.length with
        | ':' :: r2 => r2
        | _ => c :: tl
      else c :: tl
  match rest with
  | '/' :: '/' :: r =>
    String.mk (r.takeWhile (fun c => c != '/' && c != '?' && c != '#'))
  | _ => ""

/-- The recognised Twitter/X hosts (line 1078). -/
def twitterDomains : List String :=
  ["twitter.com", "x.com", "www.twitter.com", "www.x.com",
   "mobile.twitter.com", "m.twitter.com"]

/-- The fixed deleted/suspended-post phrases (lines 1082-1096), in source
order. -/
def deletedIndicators : List String :=
  ["this post is from a suspended account",
   "this post has been deleted",
   "this tweet is unavailable",
   "this account owner limits who can view",
   "tweet not found",
   "post not found",
   "account suspended",
   "page doesn\x27t exist",
   "something went wrong",
   "try again",
   "hmm...this page doesn\x27t exist",
   "sorry, you are not authorized to see this status",
   "this tweet was deleted"]

/-- The recency keywords of `_needs_current_verification` (lines 1049-1065). -/
def current_keywords : List String :=
  ["2024", "2025", "recent", "latest", "just", "new", "current", "now",
   "today", "yesterday", "this year", "last year", "recently", "breaking",
   "announced", "declared", "signed",
   "mayor", "election", "primary", "candidate", "running for", "campaign",
   "elected", "won", "victory", "defeated", "conceded", "nominee", "race",
   "vote", "ballot",
   "bill", "law", "policy", "administration", "congress", "senate", "house",
   "governor", "president", "passed", "legislation", "executive order",
   "is now", "has become", "appointed", "resigned", "stepped down",
   "takes office", "announced", "confirmed", "approved", "rejected",
   "withdrew", "endorsed"]

/-- `_needs_current_verification` (lines 1045-1068). -/
def needs_current_verification (text : String) : Bool :=
  current_keywords.any (fun k => containsSub (pyLower text) k)

/-- The validation prompt of `validate_page_content_with_gemini`
(lines 1106-1141), as a function of the URL, page content, claim and the
`needs_current_info` flag. -/
def validationPrompt (url content cl : String) (needsCur : Bool) : String :=
  "You are validating whether a web page is useful as a source for fact-checking.\n\n" ++
  "Original claim/context: " ++ pyTake cl 500 ++ "...\n\n" ++
  "URL: " ++ url ++ "\n\n" ++
  "Page content (first part):\n" ++ pyTake content 3000 ++ "...\n\n" ++
  "IMPORTANT: Pay special attention to the current date context. Today is 2025, so be very careful about claims involving recent events from late 2024 through 2025.\n\n" ++
  (if needsCur then "EXTRA SCRUTINY REQUIRED: The original claim appears to involve recent events or current status that may have changed. This page MUST contain current, up-to-date information to be valid." else "") ++ "\n\n" ++
  "Please analyze this page and respond with exactly one of these formats:\n\n" ++
  "VALID: [brief explanation of why this page is a good source]\n" ++
  "INVALID: [brief explanation of why this page is not useful - e.g., 404 error, irrelevant content, broken page, deleted social media post, etc.]\n\n" ++
  "The page should be considered INVALID ONLY if:\n" ++
  "- It\x27s clearly a 404 or error page\n" ++
  "- It\x27s completely irrelevant to the original claim (no connection at all)\n" ++
  "- It\x27s a deleted/eliminated social media post (Twitter/X)\n" ++
  "- For Twitter/X URLs: shows \x22Tweet not found\x22, \x22Account suspended\x22, \x22This tweet was deleted\x22, or similar messages\n" ++
  "- It contains only ads or navigation without ANY substantive content\n" ++
  "- It\x27s clearly broken or corrupted content\n\n" ++
  "The page should be considered VALID if:\n" ++
  "- It contains ANY relevant factual information related to the claim (even if not perfect)\n" ++
  "- It\x27s from a recognizable news source, government site, or credible organization\n" ++
  "- It has substantive content that could be used for fact-checking\n" ++
  "- For recent events (2024-2025): the source has information that could be relevant to current events\n" ++
  "- It\x27s a legitimate website that loaded successfully and contains real content\n" ++
  (if needsCur then "- The information could be useful for understanding recent developments mentioned in the claim" else "") ++ "\n\n" ++
  "BE GENEROUS in validation - if there\x27s ANY doubt about whether the page could be useful, mark it as VALID. We want to include sources that could potentially help with fact-checking rather than being overly restrictive.\n"

/-- `validate_page_content_with_gemini` (lines 1070-1158). The LLM gateway
(`get_gemini_response` on the validation prompt) is the oracle `llm`; its
`.error` is a raised exception, `.ok none` models the defensive
`response is None` branch of the source. The `original_claim` argument is
`Option String` because the caller passes `post.text`, which may be Python
`None`; in that case `_needs_current_verification(None)` raises before the
protecting `try` block is entered (the Twitter short-circuit above it does
not touch the claim and still returns normally). -/
def validate_page_content_with_gemini
    (llm : String → Except String (Option String))
    (url content : String) (original_claim : Option String) :
    Except String (Bool × String) :=
  let isTwitterUrl := twitterDomains.contains (netlocOf (pyLower url))
  match (if isTwitterUrl then
           deletedIndicators.find? (fun ind => containsSub (pyLower content) ind)
         else none) with
  | some indicator => .ok (false, "Eliminated/deleted Twitter/X post: " ++ indicator)
  | none =>
    match original_claim with
    | none => .error "AttributeError: \x27NoneType\x27 object has no attribute \x27lower\x27"
    | some cl =>
      let needsCur := needs_current_verification cl
      let prompt := validationPrompt url content cl needsCur
      match llm prompt with
      | .error e => .ok (false, "Error validating with Gemini: " ++ e)
      | .ok none => .ok (false, "Failed to get validation response from Gemini")
      | .ok (some resp) =>
        let r := pyStrip resp
        if pyStartsWith r "VALID:" then .ok (true, pyStrip (pyDrop r 6))
        else if pyStartsWith r "INVALID:" then .ok (false, pyStrip (pyDrop r 8))
        else .ok (false, "Unexpected validation response format: " ++ pyTake r 100)

/-! ## Link verification (`llm_util.verify_and_filter_links`) -/

/-- The skipped low-quality/social domains of `_should_skip_url`
(lines 818-822). -/
def skip_domains : List String :=
  ["twitter.com", "x.com", "facebook.com", "instagram.com", "tiktok.com",
   "pinterest.com", "reddit.com", "youtube.com", "youtu.be",
   "blogspot.com", "wordpress.com", "medium.com/@"]

/-- `_should_skip_url` (lines 811-824). -/
def should_skip_url (url : String) : Bool :=
  skip_domains.any (fun d => containsSub (pyLower url) d)

/-- The per-URL loop of `verify_and_filter_links` (lines 1183-1221),
accumulating `valid_urls` in order. Skipped domains and hard fetch failures
(404/403) are recorded invalid without an LLM call; on other fetch failures
the substitute text `"Unable to fetch content: ..."` is validated instead;
exceptions escaping `validate_page_content_with_gemini` propagate. -/
def processUrls (fetch : String → FetchOutcome)
    (llm : String → Except String (Option String)) (q : Option String) :
    List String → Except String (List String)
  | [] => .ok []
  | url :: rest =>
    if should_skip_url url then processUrls fetch llm q rest
    else
      let fr := fetch_page_content (fetch url)
      match fr.1 with
      | none =>
        if fr.2.1 = 404 || fr.2.1 = 403 then processUrls fetch llm q rest
        else
          match validate_page_content_with_gemini llm url
              ("Unable to fetch content: " ++ fr.2.2) q with
          | .error e => .error e
          | .ok (true, _) =>
            match processUrls fetch llm q rest with
            | .error e => .error e
            | .ok vs => .ok (url :: vs)
          | .ok (false, _) => processUrls fetch llm q rest
      | some content =>
        match validate_page_content_with_gemini llm url content q with
        | .error e => .error e
        | .ok (true, _) =>
          match processUrls fetch llm q rest with
          | .error e => .error e
          | .ok vs => .ok (url :: vs)
        | .ok (false, _) => processUrls fetch llm q rest

/-- The "verified sources" block prepended to the search results
(lines 1241-1249). -/
def filteredResultsText (search_results : String) (valid_urls : List String) : String :=
  "VERIFIED VALID SOURCES (ONLY USE THESE):\n" ++
  String.intercalate "\n" (valid_urls.map (fun u => "✅ " ++ u)) ++
  "\n\nORIGINAL SEARCH RESULTS:\n" ++ search_results ++
  "\n\nIMPORTANT: Only use information that can be attributed to the VERIFIED VALID SOURCES listed above. \nDo not use any information from sources marked as invalid, broken, or 404.\nIf you reference information in your note, only cite URLs from the VERIFIED VALID SOURCES list."

/-- `verify_and_filter_links` (lines 1161-1251). When no URL at all is
extracted the source returns the original `search_results` with an empty
list (lines 1173-1175); when URLs exist but none validates it returns
`(None, [])` (lines 1232-1235). -/
def verify_and_filter_links (fetch : String → FetchOutcome)
    (llm : String → Except String (Option String))
    (search_results : String) (original_query : Option String) :
    Except String (Option String × List String) :=
  let urls := extract_urls_from_text search_results
  if urls.isEmpty then .ok (some search_results, [])
  else
    match processUrls fetch llm original_query urls with
    | .error e => .error e
    | .ok valid_urls =>
      if valid_urls.isEmpty then .ok (none, [])
      else .ok (some (filteredResultsText search_results valid_urls), valid_urls)

/-! ## Search result cache and multi-engine search
(`llm_util.search_web_for_recent_info`) -/

/-- The module-level `_search_cache` dictionary: an association list from
cache keys to `(timestamp, result_text)` pairs, with Python-dict update
semantics (`insertCache` below replaces in place or appends). -/
structure SearchState where
  cache : List (String × (Nat × String))
deriving DecidableEq, Repr

/-- `_cache_expiry_seconds` (line 22). -/
def cacheExpirySeconds : Nat := 300

/-- The cache key `f"{query.strip()[:100]}_{max_results}"` (line 278). -/
def cacheKeyOf (query : String) (maxResults : Nat) : String :=
  pyTake (pyStrip query) 100 ++ "_" ++ toString maxResults

/-- The expired-entry purge (lines 282-285): delete every entry with
`current_time - timestamp > _cache_expiry_seconds`. -/
def purgeCache (now : Nat) (c : List (String × (Nat × String))) :
    List (String × (Nat × String)) :=
  c.filter (fun kv => !(now - kv.2.1 > cacheExpirySeconds))

/-- Python dict lookup on the association list (first matching key). -/
def lookupCache (c : List (String × (Nat × String))) (k : String) :
    Option (Nat × String) :=
  (c.find? (fun kv => kv.1 == k)).map (fun kv => kv.2)

/-- Python dict store `d[k] = v`: replace in place when the key exists,
append otherwise. -/
def insertCache (c : List (String × (Nat × String))) (k : String)
    (v : Nat × String) : List (String × (Nat × String)) :=
  if c.any (fun kv => kv.1 == k) then
    c.map (fun kv => if kv.1 == k then (k, v) else kv)
  else c ++ [(k, v)]

/-- The per-engine failure sentinels (lines 309-315). -/
def failure_patterns : List String :=
  ["Web search error",
   "Google search rate limited or no results found",
   "No valid results found from Google search",
   "No relevant news found in RSS feeds",
   "No articles found through web scraping"]

/-- The check `is_failure = not results or any(pattern in results ...)`
(line 317). -/
def isFailureResult (results : String) : Bool :=
  results == "" || failure_patterns.any (fun p => containsSub results p)

/-- The engine cascade (lines 303-335): run each engine outcome in order;
a raised exception or a failure-sentinel result advances to the next
engine. Returns the first usable result (if any) and the number of engines
invoked. -/
def tryEngines : List (Except String String) → Option String × Nat
  | [] => (none, 0)
  | o :: rest =>
    match o with
    | .error _ =>
      let r := tryEngines rest
      (r.1, r.2 + 1)
    | .ok results =>
      if isFailureResult results then
        let r := tryEngines rest
        (r.1, r.2 + 1)
      else (some results, 1)

/-- The message returned (and cached) when every engine fails
(line 338). -/
def allFailedMsg (query : String) : String :=
  "❌ All search engines failed for query: " ++ query ++
  ". Please try again later or check your internet connection."

/-- The cache-miss branch of `search_web_for_recent_info` (lines 294-340):
try the three engines in order and cache whichever result (success or the
all-failed message) is produced. `cache1` is the already-purged cache. -/
def searchMiss (engine1 engine2 engine3 : String → Nat → Except String String)
    (now : Nat) (query : String) (maxResults : Nat) (key : String)
    (cache1 : List (String × (Nat × String))) : String × SearchState × Nat :=
  match tryEngines [engine1 query maxResults, engine2 query maxResults,
                    engine3 query maxResults] with
  | (some results, n) => (results, ⟨insertCache cache1 key (now, results)⟩, n)
  | (none, n) =>
    (allFailedMsg query, ⟨insertCache cache1 key (now, allFailedMsg query)⟩, n)

/-- `search_web_for_recent_info` (lines 272-340). The three engines
(`_search_with_yagooglesearch`, `_search_with_rss_feeds`,
`_search_with_news_scraper`) are oracles taking the query and
`max_results`; `.error` models a raised exception. Returns the result
text, the new cache state and the number of engine invocations. -/
def search_web_for_recent_info
    (engine1 engine2 engine3 : String → Nat → Except String String)
    (now : Nat) (query : String) (maxResults : Nat) (st : SearchState) :
    String × SearchState × Nat :=
  let key := cacheKeyOf query maxResults
  let cache1 := purgeCache now st.cache
  match lookupCache cache1 key with
  | some (ts, cached) =>
    if now - ts ≤ cacheExpirySeconds then (cached, ⟨cache1⟩, 0)
    else searchMiss engine1 engine2 engine3 now query maxResults key cache1
  | none => searchMiss engine1 engine2 engine3 now query maxResults key cache1

/-! ## Misleading tags (`misleading_tags.py`) -/

/-- Modelled from the spec: `data_models.MisleadingTag` (the `data_models`
module is not under `src/`), "a non-empty set of misleading-reason tags
drawn from a fixed enumeration"; the enumeration values are the seven tag
strings listed in `_get_prompt_for_misleading_why_tags`. -/
inductive MisleadingTag where
  | factual_error
  | manipulated_media
  | outdated_information
  | missing_important_context
  | disputed_claim_as_fact
  | misinterpreted_satire
  | other
deriving DecidableEq, Repr

/-- JSON values as produced by Python `json.loads`. -/
inductive JVal where
  | null : JVal
  | bool : Bool → JVal
  | num : Int → JVal
  | str : String → JVal
  | arr : List JVal → JVal
  | obj : List (String × JVal) → JVal

/-- Python truthiness of a JSON value (`if json_data ...`). -/
def jTruthy : JVal → Bool
  | .null => false
  | .bool b => b
  | .num n => n != 0
  | .str s => s != ""
  | .arr xs => !xs.isEmpty
  | .obj fs => !fs.isEmpty

/-- Python `key in value`: key membership for dicts, element membership for
lists, substring for strings; a `TypeError` otherwise. -/
def jHasKey : JVal → String → Except String Bool
  | .obj fs, k => .ok (fs.any (fun kv => kv.1 == k))
  | .arr xs, k => .ok (xs.any (fun v => match v with | .str s => s == k | _ => false))
  | .str s, k => .ok (containsSub s k)
  | _, _ => .error "TypeError: argument is not iterable"

/-- Python `value[k]` with a string key: dict lookup; a `TypeError` for any
other value. -/
def jIndex : JVal → String → Except String JVal
  | .obj fs, k =>
    match fs.find? (fun kv => kv.1 == k) with
    | some kv => .ok kv.2
    | none => .error ("KeyError: " ++ k)
  | _, _ => .error "TypeError: indices must be integers"

/-- Python iteration `for tag in v`: list elements, string characters, dict
keys; a `TypeError` otherwise. -/
def jIter : JVal → Except String (List JVal)
  | .arr xs => .ok xs
  | .str s => .ok (s.data.map (fun c => .str (String.mk [c])))
  | .obj fs => .ok (fs.map (fun kv => .str kv.1))
  | _ => .error "TypeError: object is not iterable"

/-- `MisleadingTag(tag)`: the enum constructor raises `ValueError` on any
value outside the fixed enumeration (including non-strings). -/
def misleadingTagOf : JVal → Except String MisleadingTag
  | .str "factual_error" => .ok .factual_error
  | .str "manipulated_media" => .ok .manipulated_media
  | .str "outdated_information" => .ok .outdated_information
  | .str "missing_important_context" => .ok .missing_important_context
  | .str "disputed_claim_as_fact" => .ok .disputed_claim_as_fact
  | .str "misinterpreted_satire" => .ok .misinterpreted_satire
  | .str "other" => .ok .other
  | .str s => .error ("ValueError: \x27" ++ s ++ "\x27 is not a valid MisleadingTag")
  | _ => .error "ValueError: not a valid MisleadingTag"

/-- The second extraction strategy of `_extract_json_from_response`
(lines 52-60): `re.findall(r'\{[^{}]*"misleading_tags"[^{}]*\[[^\]]*\][^{}]*\}', ...)`.
Because the bracketed classes exclude both braces, every match must run
from an opening brace to the very next brace (which must close), with the
quoted literal and a later `[`...`]` pair inside; the backtracking of the
engine does not change the match extent. Scan left to right,
non-overlapping. -/
def braceSpanAt (l : List Char) : Option (List Char × List Char) :=
  let content := l.takeWhile (fun c => c != '\x7b' && c != '\x7d')
  match l.drop content.length with
  | '\x7d' :: r => some (content, r)
  | _ => none

/-- Remainder after the first occurrence of a literal, or `none`. -/
def afterFirstLit (lit : List Char) : List Char → Option (List Char)
  | [] => if lit.isEmpty then some [] else none
  | c :: rest =>
    if lit.isPrefixOf (c :: rest) then some ((c :: rest).drop lit.length)
    else afterFirstLit lit rest

/-- Does a brace-free content span satisfy
`[^{}]*"misleading_tags"[^{}]*\[[^\]]*\][^{}]*`? -/
def tagsSpanOk (content : List Char) : Bool :=
  match afterFirstLit "\x22misleading_tags\x22".data content with
  | none => false
  | some rest =>
    let r2 := rest.dropWhile (fun c => c != '[')
    match r2 with
    | '[' :: r3 => (r3.dropWhile (fun c => c != ']')).length != 0
    | _ => false

/-- `re.findall` scan for the object pattern of strategy two. -/
def jsonObjScan : Nat → List Char → List String
  | 0, _ => []
  | _, [] => []
  | fuel + 1, c :: cs =>
    if c = '\x7b' then
      match braceSpanAt cs with
      | some (content, rest) =>
        if tagsSpanOk content then
          String.mk ('\x7b' :: content ++ ['\x7d']) :: jsonObjScan fuel rest
        else jsonObjScan fuel cs
      | none => jsonObjScan fuel cs
    else jsonObjScan fuel cs

/-- The third extraction strategy (lines 62-70):
`re.search(r'"misleading_tags":\s*(\[[^\]]*\])', ...)`, returning the
bracketed group of the first position where the pattern matches. -/
def arraySearchScan : Nat → List Char → Option String
  | 0, _ => none
  | _, [] => none
  | fuel + 1, c :: cs =>
    let lit := "\x22misleading_tags\x22:".data
    if lit.isPrefixOf (c :: cs) then
      let rest := (c :: cs).drop lit.length
      let rest2 := rest.dropWhile isPyWs
      match rest2 with
      | '[' :: r3 =>
        let inner := r3.takeWhile (fun ch => ch != ']')
        match r3.drop inner.length with
        | ']' :: _ => some (String.mk ('[' :: inner ++ [']']))
        | _ => arraySearchScan fuel cs
      | _ => arraySearchScan fuel cs
    else arraySearchScan fuel cs

/-- Try `json.loads` on each candidate in order, returning the first value
that parses (strategy-two loop, lines 56-60). -/
def firstParsed (jsonLoads : String → Option JVal) : List String → Option JVal
  | [] => none
  | m :: rest =>
    match jsonLoads m with
    | some j => some j
    | none => firstParsed jsonLoads rest

/-- `_extract_json_from_response` (lines 39-72). `jsonLoads` is the Python
`json.loads` boundary (`none` = `JSONDecodeError`). -/
def extract_json_from_response (jsonLoads : String → Option JVal)
    (response : String) : Option JVal :=
  if pyStrip response == "" then none
  else
    let r := pyStrip response
    match jsonLoads r with
    | some j => some j
    | none =>
      match firstParsed jsonLoads (jsonObjScan (r.data.length + 1) r.data) with
      | some j => some j
      | none =>
        match arraySearchScan (r.data.length + 1) r.data with
        | some arrStr =>
          match jsonLoads arrStr with
          | some v => some (.obj [("misleading_tags", v)])
          | none => none
        | none => none

/-- The body of one iteration of the `while retries > 0` loop of
`get_misleading_tags` (lines 16-26): call the LLM gateway on the (fixed)
tags prompt, extract JSON, check truthiness and key membership, index,
iterate and convert each element with the `MisleadingTag` constructor.
`llm i` is the result of `get_gemini_response(misleading_why_tags_prompt)`
on the `i`-th attempt; any `.error` is a raised exception caught by the
enclosing `except`. -/
def tags_attempt (llm : Nat → Except String String)
    (jsonLoads : String → Option JVal) (i : Nat) :
    Except String (List MisleadingTag) :=
  match llm i with
  | .error e => .error e
  | .ok resp =>
    match extract_json_from_response jsonLoads resp with
    | none => .error ("No valid JSON found in response: " ++ resp)
    | some j =>
      if jTruthy j then
        match jHasKey j "misleading_tags" with
        | .error e => .error e
        | .ok false => .error ("No valid JSON found in response: " ++ resp)
        | .ok true =>
          match jIndex j "misleading_tags" with
          | .error e => .error e
          | .ok v =>
            match jIter v with
            | .error e => .error e
            | .ok elems => elems.mapM misleadingTagOf
      else .error ("No valid JSON found in response: " ++ resp)

/-- The retry loop of `get_misleading_tags` (lines 15-36): on a failed
attempt decrement `retries`; when it reaches zero return the fixed
fallback tag. `i` is the attempt index, the second argument the remaining
`retries`. -/
def getTagsLoop (llm : Nat → Except String String)
    (jsonLoads : String → Option JVal) : Nat → Nat → List MisleadingTag
  | _, 0 => [.missing_important_context]
  | i, r + 1 =>
    match tags_attempt llm jsonLoads i with
    | .ok tags => tags
    | .error _ =>
      if r = 0 then [.missing_important_context]
      else getTagsLoop llm jsonLoads (i + 1) r

/-- `get_misleading_tags` (lines 9-36) with the source default
`retries = 3`. -/
def get_misleading_tags (llm : Nat → Except String String)
    (jsonLoads : String → Option JVal) : List MisleadingTag :=
  getTagsLoop llm jsonLoads 0 3

/-! ## Data model (`data_models`, modelled from the spec) -/

/-- Modelled from the spec: the media items of a `data_models.Post`
("each media item having a type and optional URL"); the `data_models`
module is not under `src/`. -/
structure Media where
  media_type : String
  url : Option String
deriving DecidableEq, Repr

/-- Modelled from the spec: `data_models.Post` ("an identifier, optional
text, ordered sequence of media items"); the `data_models` module is not
under `src/`. -/
structure Post where
  post_id : Nat
  text : Option String
  media : List Media
deriving DecidableEq, Repr

/-- Modelled from the spec: `data_models.ProposedMisleadingNote` ("post
identifier, note text, a set of misleading-reason tags"); the
`data_models` module is not under `src/`. -/
structure ProposedMisleadingNote where
  post_id : String
  note_text : String
  misleading_tags : List MisleadingTag
deriving DecidableEq, Repr

/-- Modelled from the spec: `data_models.NoteResult` ("aggregate output —
originating post, optional images summary, optional error, optional
refusal reason, optional produced Note"); the `data_models` module is not
under `src/`. Fields not passed at a construction site default to
`none`. -/
structure NoteResult where
  post : Post
  images_summary : Option String := none
  error : Option String := none
  refusal : Option String := none
  note : Option ProposedMisleadingNote := none
deriving DecidableEq, Repr

/-! ## `write_note._ensure_urls_have_protocol` -/

/-- Python word character (`\w` on ASCII): alphanumeric or underscore. -/
def isWordChar (c : Char) : Bool := isAsciiAlnum c || c = '_'

/-- One `([a-zA-Z0-9][a-zA-Z0-9-]*[a-zA-Z0-9]*\.)` group of the
`_ensure_urls_have_protocol` pattern: a label followed by a dot. -/
def labelChunk (l : List Char) : Option (List Char × List Char) :=
  match l with
  | [] => none
  | c :: rest =>
    if isAsciiAlnum c then
      let run := rest.takeWhile (fun ch => isAsciiAlnum ch || ch = '-')
      match rest.drop run.length with
      | '.' :: r2 => some (c :: run ++ ['.'], r2)
      | _ => none
    else none

/-- Successive cumulative states after 1, 2, ... label-dot groups (the
greedy `(...)+` of the pattern); each entry is (consumed, remainder). -/
def collectLabels : Nat → List Char → List Char → List (List Char × List Char)
  | 0, _, _ => []
  | fuel + 1, acc, l =>
    match labelChunk l with
    | some (g, rest) => (acc ++ g, rest) :: collectLabels fuel (acc ++ g) rest
    | none => []

/-- After the label groups: `[a-zA-Z]{2,}(?:/[^\s]*)?` — at least two
letters (greedy) and an optional non-whitespace path. -/
def domainTail (consumed rest : List Char) : Option (List Char × List Char) :=
  let letters := rest.takeWhile isAsciiAlpha
  if letters.length ≥ 2 then
    let r2 := rest.drop letters.length
    match r2 with
    | '/' :: rp =>
      let path := rp.takeWhile (fun c => !isPyWs c)
      some (consumed ++ letters ++ '/' :: path, rp.drop path.length)
    | _ => some (consumed ++ letters, r2)
  else none

/-- First successful application of `f` over a list. -/
def firstSome (f : α → Option β) : List α → Option β
  | [] => none
  | a :: rest =>
    match f a with
    | some b => some b
    | none => firstSome f rest

/-- Try the domain pattern of `_ensure_urls_have_protocol` at a position:
the backtracking engine prefers the largest number of label groups, so try
the cumulative group states from longest to shortest. -/
def tryDomainMatch (l : List Char) : Option (List Char × List Char) :=
  firstSome (fun st => domainTail st.1 st.2)
    (collectLabels (l.length + 1) [] l).reverse

/-- The `re.sub` scan of `_ensure_urls_have_protocol` (write_note.py
lines 12-27): at each word-boundary position try the domain pattern; on a
match, consult the ten characters of the original text before the match
(`text[max(0, start_pos-10):start_pos]`) and keep the match unchanged iff
that context ends in `'://'`, `'http://'` or `'https://'`; otherwise
prefix `https://`. `orig` is the full original text; `pos` the current
position; `prev` the previous original character. -/
def ensureLoop (orig : List Char) : Nat → Nat → Option Char → List Char → List Char
  | 0, _, _, rest => rest
  | fuel + 1, pos, prev, rest =>
    match rest with
    | [] => []
    | c :: cs =>
      let boundary := match prev with
        | none => true
        | some p => !isWordChar p
      if boundary then
        match tryDomainMatch (c :: cs) with
        | some (m, after) =>
          let before := (orig.take pos).drop (pos - 10)
          let keep := "://".data.isSuffixOf before ||
                      "http://".data.isSuffixOf before ||
                      "https://".data.isSuffixOf before
          let rep := if keep then m else "https://".data ++ m
          rep ++ ensureLoop orig fuel (pos + m.length) (some (m.getLastD c)) after
        | none => c :: ensureLoop orig fuel (pos + 1) (some c) cs
      else c :: ensureLoop orig fuel (pos + 1) (some c) cs

/-- `_ensure_urls_have_protocol` (write_note.py lines 12-27). -/
def ensure_urls_have_protocol (text : String) : String :=
  String.mk (ensureLoop text.data (text.data.length + 1) 0 none text.data)

/-! ## `write_note._summarize_images` and `research_post_and_write_note` -/

/-- The oracles for the effectful collaborators of
`research_post_and_write_note`:
  * `describeImage u` — `gemini_describe_image(u)` (raises on `.error`);
  * `searchResponse` — the result of
    `get_gemini_search_response(search_prompt)` (a returned string or a
    raised exception; the source function returns a string whenever it
    returns);
  * `fetch` — the `requests.get` outcome per URL inside
    `fetch_page_content`;
  * `validateLlm` — `get_gemini_response` on a validation prompt inside
    `validate_page_content_with_gemini`;
  * `noteResponse` — the result of `get_gemini_response(note_prompt)`;
  * `tagLlm i` — `get_gemini_response` on the misleading-tags prompt at
    attempt `i`;
  * `jsonLoads` — the Python `json.loads` boundary. -/
structure Env where
  describeImage : String → Except String String
  searchResponse : Except String String
  fetch : String → FetchOutcome
  validateLlm : String → Except String (Option String)
  noteResponse : Except String String
  tagLlm : Nat → Except String String
  jsonLoads : String → Option JVal

/-- `_summarize_images` (write_note.py lines 126-148): accumulate an
`"Image {i}: ..."` line per photo (exceptions from the describe call are
caught and recorded in the summary); raise `ValueError` on video or any
other media type. `i` is the running `enumerate` index. -/
def summarizeImagesAux (describeImage : String → Except String String) :
    Nat → List Media → Except String String
  | _, [] => .ok ""
  | i, m :: rest =>
    if m.media_type = "photo" then
      let piece :=
        match m.url with
        | none => "Image " ++ toString i ++ ": [No URL available for image]\n\n"
        | some u =>
          match describeImage u with
          | .ok d =>
            if pyStrip d ≠ "" then
              "Image " ++ toString i ++ ": " ++ pyStrip d ++ "\n\n"
            else "Image " ++ toString i ++ ": [Unable to analyze image]\n\n"
          | .error e =>
            "Image " ++ toString i ++ ": [Error analyzing image: " ++ pyTake e 100 ++ "]\n\n"
      match summarizeImagesAux describeImage (i + 1) rest with
      | .ok tail => .ok (piece ++ tail)
      | .error e => .error e
    else if m.media_type = "video" then .error "Video not supported yet"
    else .error ("Unsupported media type: " ++ m.media_type)

/-- `_summarize_images` entry point; every `.error` it produces is a
`ValueError`, which is exactly what `research_post_and_write_note`
catches. -/
def summarize_images (describeImage : String → Except String String)
    (post : Post) : Except String String :=
  summarizeImagesAux describeImage 0 post.media

/-- The emptiness test of `research_post_and_write_note` (line 155):
`(not post.text or not post.text.strip())`. -/
def textBlank : Option String → Bool
  | none => true
  | some t => pyStrip t == ""

/-- The refusal message for empty posts (line 156). -/
def emptyPostRefusal : String :=
  "NO NOTE NEEDED: Post appears to be empty with no text content or media."

/-- The refusal message when no valid sources were found (line 180). -/
def noValidSourcesRefusal : String :=
  "NO VALID SOURCES FOUND: All links in search results were either broken, irrelevant, or inaccessible. Cannot write a reliable Community Note without credible sources."

/-- `research_post_and_write_note` (write_note.py lines 151-212): the full
per-post pipeline. An `.error` result is an uncaught exception propagating
to the worker (only the `ValueError` of `_summarize_images` is caught
here); `.ok` carries the returned `NoteResult`. The defensive
`search_results is None` / `note_or_refusal_str is None` branches of the
source are unreachable because the gateway either returns a string or
raises. -/
def research_post_and_write_note (env : Env) (post : Post) :
    Except String NoteResult :=
  if textBlank post.text && post.media.isEmpty then
    .ok { post := post, refusal := some emptyPostRefusal }
  else
    match summarize_images env.describeImage post with
    | .error e => .ok { post := post, error := some e }
    | .ok images_summary =>
      match env.searchResponse with
      | .error e => .error e
      | .ok search_results =>
        match verify_and_filter_links env.fetch env.validateLlm
            search_results post.text with
        | .error e => .error e
        | .ok (filtered_search_results, valid_urls) =>
          if filtered_search_results.isNone || valid_urls.isEmpty then
            .ok { post := post, refusal := some noValidSourcesRefusal }
          else
            match env.noteResponse with
            | .error e => .error e
            | .ok note_or_refusal_str =>
              if containsSub note_or_refusal_str "NO NOTE NEEDED" ||
                 containsSub note_or_refusal_str "NOT ENOUGH EVIDENCE TO WRITE A GOOD COMMUNITY NOTE" then
                .ok { post := post, refusal := some note_or_refusal_str }
              else
                let formatted_note_text := ensure_urls_have_protocol note_or_refusal_str
                let misleading_tags := get_misleading_tags env.tagLlm env.jsonLoads
                .ok { post := post
                      images_summary := some images_summary
                      note := some { post_id := toString post.post_id
                                     note_text := formatted_note_text
                                     misleading_tags := misleading_tags } }

/-- A concrete environment for exercising `research_post_and_write_note`:
the search response contains no URL, so the Source Verifier ends with an
empty valid-URL set. -/
def envW : Env where
  describeImage := fun _ => .error "no"
  searchResponse := .ok "nothing to see"
  fetch := fun _ => .timeout
  validateLlm := fun _ => .ok none
  noteResponse := .ok "note"
  tagLlm := fun _ => .error "e"
  jsonLoads := fun _ => none

/-- A concrete post with text and no media. -/
def postW : Post where
  post_id := 7
  text := some "claim text"
  media := []

/-! # Theorems -/

/-! ## Retry/backoff executor -/

theorem cf_not_retryable (e : String)
    (h : containsSub e "CONTENT_FILTERED:" = true) :
    is_retryable_error e = false := by
  simp [is_retryable_error, h]

theorem countAttemptEvents_attempt_cons (i : Nat) (tr : List REvent) :
    countAttemptEvents (.attempt i :: tr) = countAttemptEvents tr + 1 := by
  simp [countAttemptEvents, List.countP_cons, isAttemptEvent]

theorem countAttemptEvents_sleep_cons (w : Nat) (tr : List REvent) :
    countAttemptEvents (.sleep w :: tr) = countAttemptEvents tr := by
  simp [countAttemptEvents, List.countP_cons, isAttemptEvent]

theorem countAttemptEvents_rateLimit_cons (tr : List REvent) :
    countAttemptEvents (.rateLimit :: tr) = countAttemptEvents tr := by
  simp [countAttemptEvents, List.countP_cons, isAttemptEvent]

theorem countRateLimitEvents_attempt_cons (i : Nat) (tr : List REvent) :
    countRateLimitEvents (.attempt i :: tr) = countRateLimitEvents tr := by
  simp [countRateLimitEvents, List.countP_cons, isRateLimitEvent]

theorem countRateLimitEvents_sleep_cons (w : Nat) (tr : List REvent) :
    countRateLimitEvents (.sleep w :: tr) = countRateLimitEvents tr := by
  simp [countRateLimitEvents, List.countP_cons, isRateLimitEvent]

theorem countRateLimitEvents_rateLimit_cons (tr : List REvent) :
    countRateLimitEvents (.rateLimit :: tr) = countRateLimitEvents tr + 1 := by
  simp [countRateLimitEvents, List.countP_cons, isRateLimitEvent]

theorem retryLoop_content_filtered (call : Nat → Except String String)
    (maxRetries : Nat) :
    ∀ (k attempt gas : Nat) (e : String), k ≤ gas →
      (∀ i, i < k → ∃ ei, call (attempt + i) = .error ei ∧
        is_retryable_error ei = true) →
      call (attempt + k) = .error e →
      containsSub e "CONTENT_FILTERED:" = true →
      (retryLoop call maxRetries attempt gas).1 = .error (immediateMsg e) ∧
      countAttemptEvents (retryLoop call maxRetries attempt gas).2 = k + 1 := by
  intro k
  induction k with
  | zero =>
    intro attempt gas e _ _ hcall hcf
    have hret : is_retryable_error e = false := cf_not_retryable e hcf
    rw [Nat.add_zero] at hcall
    cases gas with
    | zero =>
      simp only [retryLoop, hcall, hret]
      exact ⟨rfl, rfl⟩
    | succ g =>
      simp only [retryLoop, hcall, hret]
      exact ⟨rfl, rfl⟩
  | succ k ih =>
    intro attempt gas e hk hpre hcall hcf
    cases gas with
    | zero => omega
    | succ g =>
      obtain ⟨e0, he0, hr0⟩ := hpre 0 (Nat.succ_pos k)
      rw [Nat.add_zero] at he0
      obtain ⟨hres, hcnt⟩ := ih (attempt + 1) g e (by omega)
        (fun i hi => by
          obtain ⟨ei, hei, hri⟩ := hpre (i + 1) (by omega)
          exact ⟨ei, by rw [show attempt + 1 + i = attempt + (i + 1) by omega]; exact hei, hri⟩)
        (by rw [show attempt + 1 + k = attempt + (k + 1) by omega]; exact hcall)
        hcf
      simp only [retryLoop, he0, hr0, if_true]
      refine ⟨hres, ?_⟩
      rw [countAttemptEvents_attempt_cons, countAttemptEvents_sleep_cons, hcnt]

/-- C2: for every wrapped call and every `max_retries`, as soon as an
attempt fails with a message classified as content-filtered (after any
number of earlier transient failures), `_retry_with_backoff` raises the
content-filter error immediately: the call has been invoked exactly up to
and including that attempt and is never invoked again. -/
theorem claim2_content_filtered_no_retry (call : Nat → Except String String)
    (maxRetries k : Nat) (e : String) (hk : k ≤ maxRetries)
    (hpre : ∀ i, i < k → ∃ ei, call i = .error ei ∧
      is_retryable_error ei = true)
    (hcall : call k = .error e)
    (hcf : containsSub e "CONTENT_FILTERED:" = true) :
    (retry_with_backoff call maxRetries).1 = .error (immediateMsg e) ∧
    countAttemptEvents (retry_with_backoff call maxRetries).2 = k + 1 := by
  obtain ⟨hres, hcnt⟩ := retryLoop_content_filtered call maxRetries k 0 maxRetries e hk
    (fun i hi => by simpa using hpre i hi) (by simpa using hcall) hcf
  refine ⟨hres, ?_⟩
  show countAttemptEvents (.rateLimit :: (retryLoop call maxRetries 0 maxRetries).2) = k + 1
  rw [countAttemptEvents_rateLimit_cons, hcnt]

/-- Witness for C2 at a concrete input: the first attempt fails with a
transient 503, the second with a content-filter block; the executor stops
after exactly two invocations with the content-filter message. -/
theorem claim2_witness :
    (retry_with_backoff
        (fun i => if i = 0 then .error "503 upstream"
                  else (.error "CONTENT_FILTERED: blocked" : Except String String)) 3).1 =
      .error (immediateMsg "CONTENT_FILTERED: blocked") ∧
    countAttemptEvents (retry_with_backoff
        (fun i => if i = 0 then .error "503 upstream"
                  else (.error "CONTENT_FILTERED: blocked" : Except String String)) 3).2 = 2 :=
  claim2_content_filtered_no_retry _ 3 1 "CONTENT_FILTERED: blocked"
    (by omega)
    (fun i hi => by
      have hi0 : i = 0 := by omega
      subst hi0
      exact ⟨"503 upstream", rfl, by decide⟩)
    rfl (by decide)

theorem retryLoop_all_retryable (call : Nat → Except String String)
    (maxRetries : Nat) :
    ∀ (gas attempt : Nat),
      (∀ i, i ≤ gas → ∃ e, call (attempt + i) = .error e ∧
        is_retryable_error e = true) →
      ∃ e, call (attempt + gas) = .error e ∧
        (retryLoop call maxRetries attempt gas).1 =
          .error (exhaustedMsg e maxRetries) ∧
        countAttemptEvents (retryLoop call maxRetries attempt gas).2 = gas + 1 := by
  intro gas
  induction gas with
  | zero =>
    intro attempt hpre
    obtain ⟨e, he, hr⟩ := hpre 0 (Nat.le_refl 0)
    rw [Nat.add_zero] at he
    refine ⟨e, he, ?_, ?_⟩
    · simp only [retryLoop, he, hr, if_true]
    · simp only [retryLoop, he, hr, if_true]
      rfl
  | succ g ih =>
    intro attempt hpre
    obtain ⟨e0, he0, hr0⟩ := hpre 0 (Nat.zero_le _)
    rw [Nat.add_zero] at he0
    obtain ⟨e, he, hres, hcount⟩ := ih (attempt + 1)
      (fun i hi => by
        obtain ⟨ei, hei, hri⟩ := hpre (i + 1) (by omega)
        exact ⟨ei, by rw [show attempt + 1 + i = attempt + (i + 1) by omega]; exact hei, hri⟩)
    refine ⟨e, by rw [show attempt + (g + 1) = attempt + 1 + g by omega]; exact he, ?_, ?_⟩
    · simp only [retryLoop, he0, hr0, if_true]
      exact hres
    · simp only [retryLoop, he0, hr0, if_true]
      rw [countAttemptEvents_attempt_cons, countAttemptEvents_sleep_cons, hcount]

/-- C3: when every attempt fails with a transient (retryable,
non-content-filtered) error, `_retry_with_backoff` invokes the wrapped
call exactly `max_retries + 1` times and then raises the categorized
exhaustion error determined by the final attempt's message. -/
theorem claim3_transient_exhausts_attempts (call : Nat → Except String String)
    (maxRetries : Nat)
    (hpre : ∀ i, i ≤ maxRetries → ∃ e, call i = .error e ∧
      is_retryable_error e = true) :
    ∃ e, call maxRetries = .error e ∧
      (retry_with_backoff call maxRetries).1 =
        .error (exhaustedMsg e maxRetries) ∧
      countAttemptEvents (retry_with_backoff call maxRetries).2 =
        maxRetries + 1 := by
  obtain ⟨e, he, hres, hcount⟩ := retryLoop_all_retryable call maxRetries maxRetries 0
    (fun i hi => by simpa using hpre i hi)
  refine ⟨e, by simpa using he, hres, ?_⟩
  show countAttemptEvents (.rateLimit :: (retryLoop call maxRetries 0 maxRetries).2) = _
  rw [countAttemptEvents_rateLimit_cons, hcount]

/-- Witness for C3 at a concrete input: a call that always fails with a
timeout is invoked exactly `2 + 1` times for `max_retries = 2` and the
executor raises the generic categorized message. -/
theorem claim3_witness :
    countAttemptEvents (retry_with_backoff
        (fun _ => (.error "timeout occurred" : Except String String)) 2).2 = 3 ∧
    (retry_with_backoff
        (fun _ => (.error "timeout occurred" : Except String String)) 2).1 =
      .error (exhaustedMsg "timeout occurred" 2) := by
  obtain ⟨e, he, hres, hcount⟩ := claim3_transient_exhausts_attempts
    (fun _ => (.error "timeout occurred" : Except String String)) 2
    (fun i _ => ⟨"timeout occurred", rfl, by decide⟩)
  have he' : e = "timeout occurred" := by
    injection he with h
    exact h.symm
  subst he'
  exact ⟨hcount, hres⟩

theorem retryLoop_no_rateLimit (call : Nat → Except String String)
    (maxRetries : Nat) :
    ∀ (gas attempt : Nat),
      countRateLimitEvents (retryLoop call maxRetries attempt gas).2 = 0 := by
  intro gas
  induction gas with
  | zero =>
    intro attempt
    cases h : call attempt with
    | ok v =>
      simp only [retryLoop, h]
      rw [countRateLimitEvents_attempt_cons]
      rfl
    | error e =>
      simp only [retryLoop, h]
      split <;> rw [countRateLimitEvents_attempt_cons] <;> rfl
  | succ g ih =>
    intro attempt
    cases h : call attempt with
    | ok v =>
      simp only [retryLoop, h]
      rw [countRateLimitEvents_attempt_cons]
      rfl
    | error e =>
      by_cases hr : is_retryable_error e = true
      · simp only [retryLoop, h, hr, if_true]
        rw [countRateLimitEvents_attempt_cons, countRateLimitEvents_sleep_cons]
        exact ih (attempt + 1)
      · simp only [retryLoop, h]
        rw [if_neg hr, countRateLimitEvents_attempt_cons]
        rfl

/-- C4 counterexample: with a call that always fails with a transient 503
and `max_retries = 1`, the executed trace is
`[rateLimit, attempt 0, sleep 10, attempt 1]`: the retried attempt has no
preceding rate-limiter call, so "the Rate Limiter's wait_if_needed is
invoked before each individual attempt, including every retry attempt" is
false on this concrete input. -/
theorem claim4_counterexample :
    rlBeforeEveryAttempt true (retry_with_backoff
        (fun _ => (.error "503" : Except String String)) 1).2 = false ∧
    countAttemptEvents (retry_with_backoff
        (fun _ => (.error "503" : Except String String)) 1).2 = 2 ∧
    (retry_with_backoff (fun _ => (.error "503" : Except String String)) 1).2 =
      [.rateLimit, .attempt 0, .sleep 10, .attempt 1] := by
  refine ⟨by rfl, by rfl, by rfl⟩

/-- C4 (amended): `_retry_with_backoff` invokes the rate limiter exactly
once per execution, as its first action, before the first attempt; retry
attempts are preceded by backoff sleeps but by no further rate-limiter
call. -/
theorem claim4_rate_limiter_once_per_execution
    (call : Nat → Except String String) (maxRetries : Nat) :
    (retry_with_backoff call maxRetries).2.head? = some .rateLimit ∧
    countRateLimitEvents (retry_with_backoff call maxRetries).2 = 1 := by
  constructor
  · rfl
  · show countRateLimitEvents (.rateLimit :: (retryLoop call maxRetries 0 maxRetries).2) = 1
    rw [countRateLimitEvents_rateLimit_cons, retryLoop_no_rateLimit call maxRetries maxRetries 0]

/-! ## Page fetching -/

theorem truncateContent_length (b : String) :
    (truncateContent b).length ≤ 50000 + "... [content truncated]".length := by
  unfold truncateContent
  split
  · show (String.mk (b.data.take 50000) ++ "... [content truncated]").length ≤ _
    have h1 : (String.mk (b.data.take 50000) ++ "... [content truncated]").length =
        (b.data.take 50000).length + "... [content truncated]".length := by
      show (b.data.take 50000 ++ "... [content truncated]".data).length = _
      rw [List.length_append]
      rfl
    rw [h1]
    exact Nat.add_le_add_right (List.length_take_le _ _) _
  · rename_i hle
    have hb : b.length ≤ 50000 := by omega
    exact Nat.le_trans hb (Nat.le_add_right _ _)

/-- C10: `fetch_page_content` is total at its interface: for every network
outcome it returns a `(content, status_code, error_message)` triple (every
exception branch of the source yields a triple rather than propagating);
the content is `None` exactly when the outcome is not an HTTP 200
response; and any returned content string has length at most 50000 plus
the fixed truncation marker. -/
theorem claim10_fetch_total (o : FetchOutcome) :
    ((fetch_page_content o).1 = none ↔ ∀ body, o ≠ .resp 200 body) ∧
    (∀ s, (fetch_page_content o).1 = some s →
      s.length ≤ 50000 + "... [content truncated]".length) := by
  cases o with
  | timeout => exact ⟨by simp [fetch_page_content], by simp [fetch_page_content]⟩
  | connError => exact ⟨by simp [fetch_page_content], by simp [fetch_page_content]⟩
  | tooManyRedirects => exact ⟨by simp [fetch_page_content], by simp [fetch_page_content]⟩
  | exc m => exact ⟨by simp [fetch_page_content], by simp [fetch_page_content]⟩
  | resp status body =>
    by_cases h200 : status = 200
    · subst h200
      have hfc : (fetch_page_content (FetchOutcome.resp 200 body)).1 =
          some (truncateContent body) := by
        simp [fetch_page_content]
      constructor
      · rw [hfc]
        constructor
        · intro h
          simp at h
        · intro hall
          exact absurd rfl (hall body)
      · intro s hs
        rw [hfc] at hs
        injection hs with h
        rw [← h]
        exact truncateContent_length body
    · have hfc : (fetch_page_content (FetchOutcome.resp status body)).1 = none := by
        simp [fetch_page_content, if_neg h200]
      constructor
      · rw [hfc]
        constructor
        · intro _ b hb
          injection hb with hb1 _
          exact h200 hb1
        · intro _
          rfl
      · intro s hs
        rw [hfc] at hs
        cases hs

/-- Witness for C10 at concrete inputs: a 404 response yields no content,
and a 200 response with body `"hello"` yields content within the length
bound. -/
theorem claim10_witness :
    (fetch_page_content (FetchOutcome.resp 404 "nope")).1 = none ∧
    ("hello" : String).length ≤ 50000 + "... [content truncated]".length :=
  ⟨(claim10_fetch_total (FetchOutcome.resp 404 "nope")).1.mpr
      (by intro b hb; injection hb with h1 _; exact absurd h1 (by decide)),
   (claim10_fetch_total (FetchOutcome.resp 200 "hello")).2 "hello" rfl⟩

/-! ## URL extraction -/

theorem dedupAux_mem (x : String) :
    ∀ (l seen : List String), x ∈ dedupAux seen l ↔ x ∈ l ∧ x ∉ seen := by
  intro l
  induction l with
  | nil => intro seen; simp [dedupAux]
  | cons u rest ih =>
    intro seen
    by_cases hc : u ∈ seen
    · have hcb : seen.contains u = true := by simpa using hc
      simp only [dedupAux, hcb, if_true]
      rw [ih seen, List.mem_cons]
      constructor
      · rintro ⟨hx, hs⟩
        exact ⟨Or.inr hx, hs⟩
      · rintro ⟨hx | hx, hs⟩
        · subst hx
          exact absurd hc hs
        · exact ⟨hx, hs⟩
    · have hcb : seen.contains u = false := by simpa using hc
      simp only [dedupAux, hcb, Bool.false_eq_true, if_false]
      rw [List.mem_cons, List.mem_cons, ih (u :: seen)]
      constructor
      · rintro (h | ⟨hx, hs⟩)
        · subst h
          exact ⟨Or.inl rfl, hc⟩
        · refine ⟨Or.inr hx, fun hxs => hs ?_⟩
          exact List.mem_cons_of_mem _ hxs
      · rintro ⟨h | hx, hs⟩
        · exact Or.inl h
        · by_cases hxu : x = u
          · exact Or.inl hxu
          · refine Or.inr ⟨hx, ?_⟩
            rw [List.mem_cons]
            rintro (h | h)
            · exact hxu h
            · exact hs h

theorem idxOf_cons_self (u : String) (l : List String) :
    idxOf u (u :: l) = 0 := by
  simp [idxOf]

theorem idxOf_cons_ne (u a : String) (l : List String) (h : u ≠ a) :
    idxOf a (u :: l) = idxOf a l + 1 := by
  simp [idxOf, h]

theorem dedupAux_pairwise :
    ∀ (l seen : List String),
      List.Pairwise (fun a b => idxOf a l < idxOf b l) (dedupAux seen l) := by
  intro l
  induction l with
  | nil => intro seen; simp [dedupAux]
  | cons u rest ih =>
    intro seen
    by_cases hc : u ∈ seen
    · have hcb : seen.contains u = true := by simpa using hc
      simp only [dedupAux, hcb, if_true]
      refine (ih seen).imp_of_mem ?_
      intro a b ha hb hrel
      have ha' := ((dedupAux_mem a rest seen).mp ha).2
      have hb' := ((dedupAux_mem b rest seen).mp hb).2
      have hau : u ≠ a := fun h => ha' (h ▸ hc)
      have hbu : u ≠ b := fun h => hb' (h ▸ hc)
      rw [idxOf_cons_ne u a rest hau, idxOf_cons_ne u b rest hbu]
      omega
    · have hcb : seen.contains u = false := by simpa using hc
      simp only [dedupAux, hcb, Bool.false_eq_true, if_false]
      constructor
      · intro b hb
        have hb' := ((dedupAux_mem b rest (u :: seen)).mp hb).2
        have hbu : u ≠ b := fun h => hb' (h ▸ List.mem_cons_self u seen)
        rw [idxOf_cons_self, idxOf_cons_ne u b rest hbu]
        omega
      · refine (ih (u :: seen)).imp_of_mem ?_
        intro a b ha hb hrel
        have ha' := ((dedupAux_mem a rest (u :: seen)).mp ha).2
        have hb' := ((dedupAux_mem b rest (u :: seen)).mp hb).2
        have hau : u ≠ a := fun h => ha' (h ▸ List.mem_cons_self u seen)
        have hbu : u ≠ b := fun h => hb' (h ▸ List.mem_cons_self u seen)
        rw [idxOf_cons_ne u a rest hau, idxOf_cons_ne u b rest hbu]
        omega

theorem dropWhile_spec (p : Char → Bool) :
    ∀ l : List Char, l.dropWhile p = [] ∨
      ∃ c t, l.dropWhile p = c :: t ∧ p c = false := by
  intro l
  induction l with
  | nil => exact Or.inl rfl
  | cons c t ih =>
    by_cases pc : p c = true
    · rw [List.dropWhile_cons_of_pos pc]
      exact ih
    · rw [List.dropWhile_cons_of_neg pc]
      exact Or.inr ⟨c, t, rfl, by simpa using pc⟩

theorem dropTrailPunct_spec (l : List Char) :
    dropTrailPunct l = [] ∨
      ∃ c t, dropTrailPunct l = t ++ [c] ∧ isTrailPunct c = false := by
  unfold dropTrailPunct
  rcases dropWhile_spec isTrailPunct l.reverse with h | ⟨c, t, heq, hp⟩
  · rw [h]
    exact Or.inl rfl
  · rw [heq]
    exact Or.inr ⟨c, t.reverse, by simp, hp⟩

theorem isPrefixOf_append_self (l t : List Char) :
    l.isPrefixOf (l ++ t) = true := by
  induction l with
  | nil => simp [List.isPrefixOf]
  | cons c cs ih => simp [List.isPrefixOf, ih]

/-- C6: `extract_urls_from_text` deduplicates the cleaned regex matches
preserving first-occurrence order (the dedup stage is duplicate-free, has
exactly the members of the cleaned match list and lists them in strictly
increasing order of first occurrence), every cleaned URL has its trailing
sentence punctuation stripped, every URL lacking a scheme gets `https://`
prefixed (so every output URL carries a scheme), and the input
`"see a.com and a.com and b.com"` yields exactly
`["https://a.com", "https://b.com"]`. -/
theorem claim6_extract_urls (text : String) :
    List.Pairwise (fun a b => idxOf a (cleaned_urls text) < idxOf b (cleaned_urls text))
      (dedupFirst (cleaned_urls text)) ∧
    (∀ u, u ∈ dedupFirst (cleaned_urls text) ↔ u ∈ cleaned_urls text) ∧
    (∀ u, u ∈ cleaned_urls text →
       ∃ c t, u.data = t ++ [c] ∧ isTrailPunct c = false) ∧
    (∀ v, v ∈ dedupFirst (cleaned_urls text) →
       normalizeUrl v = v ∨ normalizeUrl v = "https://" ++ v) ∧
    (∀ u, u ∈ extract_urls_from_text text →
       pyStartsWith u "http://" = true ∨ pyStartsWith u "https://" = true) ∧
    extract_urls_from_text "see a.com and a.com and b.com" =
      ["https://a.com", "https://b.com"] := by
  refine ⟨dedupAux_pairwise _ _, ?_, ?_, ?_, ?_, by rfl⟩
  · intro u
    rw [dedupFirst, dedupAux_mem]
    simp
  · intro u hu
    rw [cleaned_urls, List.mem_filter] at hu
    obtain ⟨hmap, hne⟩ := hu
    have hne' : u ≠ "" := of_decide_eq_true hne
    obtain ⟨r, _, hr⟩ := List.mem_map.mp hmap
    have hdata : u.data = dropTrailPunct (pyStripL r.data) := by
      rw [← hr]
      rfl
    rcases dropTrailPunct_spec (pyStripL r.data) with h | ⟨c, t, heq, hp⟩
    · exfalso
      apply hne'
      have h0 : u.data = [] := by rw [hdata, h]
      calc u = String.mk u.data := rfl
        _ = String.mk [] := by rw [h0]
        _ = "" := rfl
    · exact ⟨c, t, by rw [hdata, heq], hp⟩
  · intro v _
    unfold normalizeUrl
    split
    · split
      · exact Or.inr rfl
      · exact Or.inr rfl
    · exact Or.inl rfl
  · intro u hu
    rw [extract_urls_from_text] at hu
    obtain ⟨v, _, hv⟩ := List.mem_map.mp hu
    rw [normalizeUrl] at hv
    split at hv
    · have hpre : pyStartsWith ("https://" ++ v) "https://" = true := by
        show ("https://".data).isPrefixOf ("https://" ++ v).data = true
        have : ("https://" ++ v).data = "https://".data ++ v.data := rfl
        rw [this]
        exact isPrefixOf_append_self _ _
      split at hv <;> rw [← hv] <;> exact Or.inr hpre
    · rename_i hcond
      rw [Bool.not_eq_true] at hcond
      rw [← hv]
      by_cases h1 : pyStartsWith v "http://" = true
      · exact Or.inl h1
      · by_cases h2 : pyStartsWith v "https://" = true
        · exact Or.inr h2
        · rw [Bool.not_eq_true] at h1 h2
          rw [h1, h2] at hcond
          simp at hcond

/-- Witness for C6: the theorem instantiated at the concrete example input,
projecting out the concrete extraction result and the membership property
of the dedup stage for `"https://a.com"`. -/
theorem claim6_witness :
    extract_urls_from_text "see a.com and a.com and b.com" =
      ["https://a.com", "https://b.com"] ∧
    ("a.com" ∈ dedupFirst (cleaned_urls "see a.com and a.com and b.com") ↔
      "a.com" ∈ cleaned_urls "see a.com and a.com and b.com") :=
  ⟨(claim6_extract_urls "see a.com and a.com and b.com").2.2.2.2.2,
   (claim6_extract_urls "see a.com and a.com and b.com").2.1 "a.com"⟩

/-! ## Link verification and the note pipeline -/

/-- C5 counterexample: on a search text from which no URL at all is
extracted, `verify_and_filter_links` ends with an empty `valid_urls` list
but returns `(search_results, [])`, not `(None, [])` — the claim "it
returns the pair (None, []) ... including the case where no URLs were
extracted" is false at this concrete input. -/
theorem claim5_counterexample :
    verify_and_filter_links (fun _ => FetchOutcome.timeout) (fun _ => .ok none)
      "no links here" (some "q") = .ok (some "no links here", []) ∧
    verify_and_filter_links (fun _ => FetchOutcome.timeout) (fun _ => .ok none)
      "no links here" (some "q") ≠ .ok (none, []) := by
  constructor
  · rfl
  · intro h
    rw [show verify_and_filter_links (fun _ => FetchOutcome.timeout)
        (fun _ => .ok none) "no links here" (some "q") =
        .ok (some "no links here", ([] : List String)) from rfl] at h
    injection h with h1
    exact Option.noConfusion (Prod.ext_iff.mp h1).1

/-- C5 (amended): when no URL is extracted from the search text,
`verify_and_filter_links` returns the original text with an empty list;
when at least one URL was extracted and the run ends with an empty
`valid_urls` list, it returns `(None, [])`, signalling the caller to abort
note generation. -/
theorem claim5_empty_valid_urls (fetch : String → FetchOutcome)
    (llm : String → Except String (Option String)) (sr : String)
    (q : Option String) :
    (extract_urls_from_text sr = [] →
      verify_and_filter_links fetch llm sr q = .ok (some sr, [])) ∧
    (∀ f vs, extract_urls_from_text sr ≠ [] →
      verify_and_filter_links fetch llm sr q = .ok (f, vs) → vs = [] →
      f = none) := by
  constructor
  · intro h
    unfold verify_and_filter_links
    rw [h]
    rfl
  · intro f vs hne hok hvs
    unfold verify_and_filter_links at hok
    have hie : (extract_urls_from_text sr).isEmpty = false := by
      cases hx : extract_urls_from_text sr with
      | nil => exact absurd hx hne
      | cons a l => rfl
    simp only [hie, Bool.false_eq_true, if_false] at hok
    cases hp : processUrls fetch llm q (extract_urls_from_text sr) with
    | error e =>
      rw [hp] at hok
      exact Except.noConfusion hok
    | ok vs' =>
      rw [hp] at hok
      dsimp only at hok
      by_cases hv : vs'.isEmpty = true
      · rw [if_pos hv] at hok
        injection hok with h1
        exact (Prod.ext_iff.mp h1).1.symm
      · rw [if_neg hv] at hok
        injection hok with h1
        have h2 : vs = vs' := (Prod.ext_iff.mp h1).2.symm
        rw [h2] at hvs
        rw [hvs] at hv
        exact absurd rfl hv

/-- Witness for C5 at concrete inputs: a no-URL text keeps the original
results, and a text whose only URL 404s ends with `(None, [])` (the
amended theorem's second part applied at that input). -/
theorem claim5_witness :
    verify_and_filter_links (fun _ => FetchOutcome.timeout) (fun _ => .ok none)
      "hello there" (some "q") = .ok (some "hello there", []) ∧
    (none : Option String) = none :=
  ⟨(claim5_empty_valid_urls (fun _ => FetchOutcome.timeout) (fun _ => .ok none)
      "hello there" (some "q")).1 rfl,
   (claim5_empty_valid_urls (fun _ => FetchOutcome.resp 404 "nf")
      (fun _ => .ok none) "see a.com" (some "q")).2 none [] (by decide) rfl rfl⟩

/-- C1: if the Source Verifier run used by `research_post_and_write_note`
ends with an empty valid-URL set or a `None` filtered text, then whatever
`NoteResult` the function returns has its `note` field unset (the outcomes
are the empty-post refusal, the media error, or the no-valid-sources
refusal — never a produced note). -/
theorem claim1_refusal_when_no_valid_sources (env : Env) (post : Post)
    (result : NoteResult) (sr : String) (f : Option String) (vs : List String)
    (hsr : env.searchResponse = .ok sr)
    (hv : verify_and_filter_links env.fetch env.validateLlm sr post.text =
      .ok (f, vs))
    (hempty : f = none ∨ vs = [])
    (hr : research_post_and_write_note env post = .ok result) :
    result.note = none := by
  unfold research_post_and_write_note at hr
  split at hr
  · injection hr with h
    rw [← h]
  · split at hr
    · injection hr with h
      rw [← h]
    · split at hr
      · exact Except.noConfusion hr
      · rename_i sr' hsr'
        rw [hsr] at hsr'
        injection hsr' with hss
        subst hss
        split at hr
        · exact Except.noConfusion hr
        · rename_i f' vs' hv'
          rw [hv] at hv'
          injection hv' with hp
          have hf : f = f' := (Prod.ext_iff.mp hp).1
          have hvs : vs = vs' := (Prod.ext_iff.mp hp).2
          have hcond : (f'.isNone || vs'.isEmpty) = true := by
            rcases hempty with h | h
            · rw [← hf, h]
              rfl
            · rw [← hvs, h]
              simp
          rw [hcond] at hr
          simp only [if_true] at hr
          injection hr with h
          rw [← h]

/-- Witness for C1 at a concrete input: a post with text and no media,
whose search response contains no URL, yields the no-valid-sources refusal
with the `note` field unset. -/
theorem claim1_witness :
    research_post_and_write_note envW postW =
      .ok { post := postW, refusal := some noValidSourcesRefusal } ∧
    ({ post := postW, refusal := some noValidSourcesRefusal } : NoteResult).note = none :=
  ⟨rfl,
   claim1_refusal_when_no_valid_sources envW postW
     { post := postW, refusal := some noValidSourcesRefusal }
     "nothing to see" (some "nothing to see") [] rfl rfl (Or.inr rfl) rfl⟩

/-- C8: for every URL on a recognised Twitter/X domain whose fetched body
contains one of the fixed deleted/suspended phrases,
`validate_page_content_with_gemini` returns invalid with an explanation,
and the result is independent of the LLM oracle — no call to the LLM
gateway is made (the short-circuit happens before the prompt is built). -/
theorem claim8_twitter_deleted_no_llm
    (llm1 llm2 : String → Except String (Option String))
    (url content : String) (claim : Option String)
    (htw : twitterDomains.contains (netlocOf (pyLower url)) = true)
    (hdel : deletedIndicators.any
      (fun ind => containsSub (pyLower content) ind) = true) :
    validate_page_content_with_gemini llm1 url content claim =
      validate_page_content_with_gemini llm2 url content claim ∧
    ∃ indicator, indicator ∈ deletedIndicators ∧
      validate_page_content_with_gemini llm1 url content claim =
        .ok (false, "Eliminated/deleted Twitter/X post: " ++ indicator) := by
  have hfind : ∃ indicator, deletedIndicators.find?
      (fun ind => containsSub (pyLower content) ind) = some indicator ∧
      indicator ∈ deletedIndicators := by
    obtain ⟨x, hx, hpx⟩ := List.any_eq_true.mp hdel
    cases hf : deletedIndicators.find?
        (fun ind => containsSub (pyLower content) ind) with
    | none =>
      exact absurd hpx (by
        have := List.find?_eq_none.mp hf x hx
        simpa using this)
    | some ind =>
      exact ⟨ind, rfl, List.mem_of_find?_eq_some hf⟩
  obtain ⟨ind, hfi, hmem⟩ := hfind
  constructor
  · unfold validate_page_content_with_gemini
    rw [htw]
    simp only [if_true, hfi]
  · refine ⟨ind, hmem, ?_⟩
    unfold validate_page_content_with_gemini
    rw [htw]
    simp only [if_true, hfi]

/-- Witness for C8 at a concrete input: a tweet URL whose page body says
the tweet was deleted is rejected identically under two different LLM
oracles. -/
theorem claim8_witness :
    validate_page_content_with_gemini (fun _ => .ok (some "VALID: fine"))
      "https://x.com/u/status/1" "Sorry: This Tweet was deleted." (some "c") =
    validate_page_content_with_gemini (fun _ => .error "boom")
      "https://x.com/u/status/1" "Sorry: This Tweet was deleted." (some "c") ∧
    validate_page_content_with_gemini (fun _ => .ok (some "VALID: fine"))
      "https://x.com/u/status/1" "Sorry: This Tweet was deleted." (some "c") =
      .ok (false, "Eliminated/deleted Twitter/X post: this tweet was deleted") :=
  ⟨(claim8_twitter_deleted_no_llm (fun _ => .ok (some "VALID: fine"))
      (fun _ => .error "boom") "https://x.com/u/status/1"
      "Sorry: This Tweet was deleted." (some "c") (by decide) (by decide)).1,
   rfl⟩

/-! ## Search result cache -/

theorem lookupCache_eq_none_of_not_mem (k : String) :
    ∀ c : List (String × (Nat × String)), k ∉ c.map Prod.fst →
      lookupCache c k = none := by
  intro c
  induction c with
  | nil => intro _; rfl
  | cons kv rest ih =>
    intro h
    have hne : kv.1 ≠ k := by
      intro he
      exact h (by rw [List.map_cons, he]; exact List.mem_cons_self _ _)
    have hk : (kv.1 == k) = false := by
      simpa using hne
    unfold lookupCache
    rw [List.find?_cons_of_neg _ (by simp [hk])]
    exact ih (fun hm => h (by rw [List.map_cons]; exact List.mem_cons_of_mem _ hm))

theorem lookupCache_filter_none (p : String × (Nat × String) → Bool) (k : String) :
    ∀ c : List (String × (Nat × String)), lookupCache c k = none →
      lookupCache (c.filter p) k = none := by
  intro c
  induction c with
  | nil => intro _; rfl
  | cons kv rest ih =>
    intro h
    by_cases hk : (kv.1 == k) = true
    · exfalso
      unfold lookupCache at h
      rw [List.find?_cons_of_pos _ (by simp [hk])] at h
      exact Option.noConfusion h
    · have hk' : (kv.1 == k) = false := by
        simpa using hk
      unfold lookupCache at h
      rw [List.find?_cons_of_neg _ (by simp [hk'])] at h
      cases hp : p kv with
      | true =>
        rw [List.filter_cons_of_pos hp]
        unfold lookupCache
        rw [List.find?_cons_of_neg _ (by simp [hk'])]
        exact ih h
      | false =>
        rw [List.filter_cons_of_neg (by simp [hp])]
        exact ih h

theorem lookupCache_filter_some (p : String × (Nat × String) → Bool)
    (k : String) (tv : Nat × String) :
    ∀ c : List (String × (Nat × String)), (c.map Prod.fst).Nodup →
      lookupCache c k = some tv →
      lookupCache (c.filter p) k =
        (if p (k, tv) = true then some tv else none) := by
  intro c
  induction c with
  | nil => intro _ h; exact Option.noConfusion h
  | cons kv rest ih =>
    intro hnd h
    rw [List.map_cons, List.nodup_cons] at hnd
    obtain ⟨hw, hnd'⟩ := hnd
    by_cases hk : (kv.1 == k) = true
    · have hkeq : kv.1 = k := by
        exact eq_of_beq hk
      unfold lookupCache at h
      rw [List.find?_cons_of_pos _ (by simp [hk])] at h
      injection h with h2
      have hkv : kv = (k, tv) := by
        cases kv with
        | mk a b =>
          simp only at h2 hkeq
          rw [hkeq, h2]
      cases hp : p kv with
      | true =>
        rw [List.filter_cons_of_pos hp]
        unfold lookupCache
        rw [List.find?_cons_of_pos _ (by simp [hk])]
        rw [hkv] at hp
        rw [if_pos hp]
        simpa using h2
      | false =>
        rw [List.filter_cons_of_neg (by simp [hp])]
        rw [hkv] at hp
        rw [if_neg (by simp [hp])]
        have hrest : lookupCache rest k = none := by
          apply lookupCache_eq_none_of_not_mem
          rw [← hkeq]
          exact hw
        exact lookupCache_filter_none p k rest hrest
    · have hk' : (kv.1 == k) = false := by
        simpa using hk
      unfold lookupCache at h
      rw [List.find?_cons_of_neg _ (by simp [hk'])] at h
      cases hp : p kv with
      | true =>
        rw [List.filter_cons_of_pos hp]
        unfold lookupCache
        rw [List.find?_cons_of_neg _ (by simp [hk'])]
        exact ih hnd' h
      | false =>
        rw [List.filter_cons_of_neg (by simp [hp])]
        exact ih hnd' h

theorem lookupCache_insert (k : String) (v : Nat × String) :
    ∀ c : List (String × (Nat × String)),
      lookupCache (insertCache c k v) k = some v := by
  intro c
  unfold insertCache
  by_cases h : c.any (fun kv => kv.1 == k) = true
  · rw [if_pos h]
    revert h
    induction c with
    | nil =>
      intro h
      simp at h
    | cons kv rest ih =>
      intro h
      by_cases hk : (kv.1 == k) = true
      · rw [List.map_cons, if_pos hk]
        unfold lookupCache
        rw [List.find?_cons_of_pos _ (by simp)]
        rfl
      · rw [List.map_cons, if_neg hk]
        unfold lookupCache
        rw [List.find?_cons_of_neg _ (by simpa using hk)]
        apply ih
        have hk' : (kv.1 == k) = false := by
          simpa using hk
        rw [List.any_cons, hk', Bool.false_or] at h
        exact h
  · rw [if_neg h]
    revert h
    induction c with
    | nil =>
      intro _
      unfold lookupCache
      rw [List.nil_append, List.find?_cons_of_pos _ (by simp)]
      rfl
    | cons kv rest ih =>
      intro h
      have hk : (kv.1 == k) = false := by
        by_cases hx : (kv.1 == k) = true
        · exact absurd (by rw [List.any_cons, hx, Bool.true_or]) h
        · simpa using hx
      have hrest : ¬rest.any (fun kv => kv.1 == k) = true := by
        intro hx
        exact h (by rw [List.any_cons, hx, Bool.or_true])
      rw [List.cons_append]
      unfold lookupCache
      rw [List.find?_cons_of_neg _ (by simp [hk])]
      exact ih hrest

theorem tryEngines_pos (o : Except String String)
    (rest : List (Except String String)) :
    (tryEngines (o :: rest)).2 ≥ 1 := by
  cases o with
  | error e => simp [tryEngines]
  | ok r =>
    by_cases hf : isFailureResult r = true
    · simp [tryEngines, hf]
    · simp [tryEngines, hf]

theorem searchMiss_spec (e1 e2 e3 : String → Nat → Except String String)
    (now : Nat) (query : String) (mr : Nat) (key : String)
    (cache1 : List (String × (Nat × String))) :
    lookupCache (searchMiss e1 e2 e3 now query mr key cache1).2.1.cache key =
      some (now, (searchMiss e1 e2 e3 now query mr key cache1).1) ∧
    (searchMiss e1 e2 e3 now query mr key cache1).2.2 ≥ 1 := by
  unfold searchMiss
  have hpos := tryEngines_pos (e1 query mr) [e2 query mr, e3 query mr]
  cases h : tryEngines [e1 query mr, e2 query mr, e3 query mr] with
  | mk ro rn =>
    rw [h] at hpos
    cases ro with
    | some res =>
      exact ⟨lookupCache_insert key (now, res) cache1, hpos⟩
    | none =>
      exact ⟨lookupCache_insert key (now, allFailedMsg query) cache1, hpos⟩

/-- C7 counterexample: a run in which every engine fails (all three raise)
still creates a cache entry for the key, caching the all-engines-failed
message — "an entry is created only by a successful multi-engine search
(never when every engine fails)" is false at this concrete input. -/
theorem claim7_counterexample :
    search_web_for_recent_info (fun _ _ => .error "engine down")
      (fun _ _ => .error "engine down") (fun _ _ => .error "engine down")
      1000 "q" 10 ⟨[]⟩ =
      (allFailedMsg "q", ⟨[("q_10", (1000, allFailedMsg "q"))]⟩, 3) ∧
    lookupCache [("q_10", (1000, allFailedMsg "q"))] (cacheKeyOf "q" 10) =
      some (1000, allFailedMsg "q") :=
  ⟨rfl, rfl⟩

/-- C7 (amended): for well-formed cache states (no duplicate keys):
a fresh (unexpired) entry for the key is returned verbatim with zero
engine invocations; an entry older than the expiry window is treated as
absent — the engines are consulted (at least one invocation) and the entry
is replaced by a fresh one carrying the new result; and on a plain miss an
entry is created holding the produced result — whether the engines
succeeded or all failed (the failure message is cached too, which is why
"created only by a successful search" needed amending). -/
theorem claim7_cache_lifecycle
    (e1 e2 e3 : String → Nat → Except String String) (now : Nat)
    (query : String) (mr : Nat) (st : SearchState)
    (hnd : (st.cache.map Prod.fst).Nodup) :
    (∀ ts v, lookupCache st.cache (cacheKeyOf query mr) = some (ts, v) →
      now - ts ≤ cacheExpirySeconds →
      (search_web_for_recent_info e1 e2 e3 now query mr st).1 = v ∧
      (search_web_for_recent_info e1 e2 e3 now query mr st).2.2 = 0) ∧
    (∀ ts v, lookupCache st.cache (cacheKeyOf query mr) = some (ts, v) →
      now - ts > cacheExpirySeconds →
      (search_web_for_recent_info e1 e2 e3 now query mr st).2.2 ≥ 1 ∧
      lookupCache (search_web_for_recent_info e1 e2 e3 now query mr st).2.1.cache
          (cacheKeyOf query mr) =
        some (now, (search_web_for_recent_info e1 e2 e3 now query mr st).1)) ∧
    (lookupCache st.cache (cacheKeyOf query mr) = none →
      (search_web_for_recent_info e1 e2 e3 now query mr st).2.2 ≥ 1 ∧
      lookupCache (search_web_for_recent_info e1 e2 e3 now query mr st).2.1.cache
          (cacheKeyOf query mr) =
        some (now, (search_web_for_recent_info e1 e2 e3 now query mr st).1)) := by
  refine ⟨?_, ?_, ?_⟩
  · intro ts v hmem hle
    have hl : lookupCache (purgeCache now st.cache) (cacheKeyOf query mr) =
        some (ts, v) := by
      unfold purgeCache
      rw [lookupCache_filter_some _ _ _ st.cache hnd hmem]
      have hng : ¬(now - ts > cacheExpirySeconds) := by omega
      simp [hng]
    unfold search_web_for_recent_info
    simp only [hl]
    rw [if_pos hle]
    exact ⟨rfl, rfl⟩
  · intro ts v hmem hgt
    have hl : lookupCache (purgeCache now st.cache) (cacheKeyOf query mr) =
        none := by
      unfold purgeCache
      rw [lookupCache_filter_some _ _ _ st.cache hnd hmem]
      simp [hgt]
    unfold search_web_for_recent_info
    simp only [hl]
    have := searchMiss_spec e1 e2 e3 now query mr (cacheKeyOf query mr)
      (purgeCache now st.cache)
    exact ⟨this.2, this.1⟩
  · intro hmem
    have hl : lookupCache (purgeCache now st.cache) (cacheKeyOf query mr) =
        none := lookupCache_filter_none _ _ st.cache hmem
    unfold search_web_for_recent_info
    simp only [hl]
    have := searchMiss_spec e1 e2 e3 now query mr (cacheKeyOf query mr)
      (purgeCache now st.cache)
    exact ⟨this.2, this.1⟩

/-- Witness for C7 at a concrete input: a repeated query 200 seconds after
the entry was stored returns the identical cached text with zero engine
invocations, via the amended theorem. -/
theorem claim7_witness :
    (search_web_for_recent_info (fun _ _ => .error "down")
      (fun _ _ => .error "down") (fun _ _ => .error "down")
      700 "q" 10 ⟨[("q_10", (500, "cached result"))]⟩).1 = "cached result" ∧
    (search_web_for_recent_info (fun _ _ => .error "down")
      (fun _ _ => .error "down") (fun _ _ => .error "down")
      700 "q" 10 ⟨[("q_10", (500, "cached result"))]⟩).2.2 = 0 :=
  (claim7_cache_lifecycle (fun _ _ => .error "down") (fun _ _ => .error "down")
    (fun _ _ => .error "down") 700 "q" 10 ⟨[("q_10", (500, "cached result"))]⟩
    (by simp)).1 500 "cached result" rfl (by decide)

/-! ## Misleading tags -/

/-- C9 counterexample: when the model's response is the valid JSON object
whose `misleading_tags` value is the empty array, `get_misleading_tags`
returns the empty list — so "returns a non-empty list of misleading-reason
tags" is false at this concrete input (the `json.loads` oracle here gives
the standard parse of that literal). -/
theorem claim9_counterexample :
    get_misleading_tags (fun _ => .ok "\x7b\x22misleading_tags\x22: []\x7d")
      (fun s => if s = "\x7b\x22misleading_tags\x22: []\x7d" then
                  some (.obj [("misleading_tags", .arr [])])
                else none) = [] := by
  rfl

/-- C9 (amended): the tags returned by `get_misleading_tags` are always
values of the fixed enumeration (any string outside it makes the
`MisleadingTag` constructor raise, failing the attempt), and whenever the
attempt — in particular its JSON extraction — fails on all 3 tries, the
function returns exactly the single fixed fallback tag
`missing_important_context` rather than failing; however the list may be
empty when the model returns an empty `misleading_tags` array, so the
unconditional non-emptiness of the original claim does not hold. -/
theorem claim9_fallback_after_three_failures (llm : Nat → Except String String)
    (jsonLoads : String → Option JVal)
    (h : ∀ i, i < 3 → ∃ e, tags_attempt llm jsonLoads i = .error e) :
    get_misleading_tags llm jsonLoads = [MisleadingTag.missing_important_context] := by
  obtain ⟨e0, h0⟩ := h 0 (by omega)
  obtain ⟨e1, h1⟩ := h 1 (by omega)
  obtain ⟨e2, h2⟩ := h 2 (by omega)
  unfold get_misleading_tags
  simp [getTagsLoop, h0, h1, h2]

/-- Witness for C9 at a concrete input: a model that always answers with an
empty string makes JSON extraction fail on all 3 attempts, and the fixed
fallback tag is returned. -/
theorem claim9_witness :
    get_misleading_tags (fun _ => .ok "") (fun _ => none) =
      [MisleadingTag.missing_important_context] :=
  claim9_fallback_after_three_failures (fun _ => .ok "") (fun _ => none)
    (fun _ _ => ⟨"No valid JSON found in response: ", rfl⟩)
